import Mathlib

/-!
Shallow embedding of the payment-reconciliation subsystem:
`src/database.py` (Supabase-backed user ledger) and `src/stripe_server.py`
(Stripe webhook handler).

The Supabase `users` table is modelled as a list of rows in table order.
`select().eq("user_id", uid)` returns the matching rows in order, and the
Python code takes `data[0] if data else None`; `update().eq("user_id", uid)`
rewrites every matching row.
-/

/-- A row of the `users` table (database.py `add_user` inserts
`user_id`, `points`, `referred_by`, `created_at`; `priority` is a further
column read and written by the priority-merge step, NULL by default). -/
structure User where
  user_id : Int
  points : Int
  priority : Option Int
  referred_by : Option Int
  created_at : Nat
deriving Repr, DecidableEq

/-- database.py lines 18-21: `get_user` selects rows with the given
`user_id` and returns the first one, or `None` when there is none. -/
def get_user (db : List User) (uid : Int) : Option User :=
  match db with
  | [] => none
  | u :: rest => if u.user_id = uid then some u else get_user rest uid

/-- database.py lines 23-38: `add_user` refuses to insert when a row with
this `user_id` already exists (returns `False`), otherwise appends a row
with the given points and referrer and returns `True`. -/
def add_user (db : List User) (uid : Int) (referred_by : Option Int)
    (initial_points : Int) (created_at : Nat) : List User × Bool :=
  match get_user db uid with
  | some _ => (db, false)
  | none => (db ++ [⟨uid, initial_points, none, referred_by, created_at⟩], true)

/-- Supabase `update({"points": pts}).eq("user_id", uid)`: every row whose
`user_id` matches gets its `points` column overwritten. -/
def set_user_points (db : List User) (uid : Int) (pts : Int) : List User :=
  db.map (fun u => if u.user_id = uid then { u with points := pts } else u)

/-- Supabase `update({"priority": p}).eq("user_id", uid)`. -/
def set_user_priority (db : List User) (uid : Int) (p : Int) : List User :=
  db.map (fun u => if u.user_id = uid then { u with priority := some p } else u)

/-- database.py lines 40-48: `update_user_points` reads the row, and when it
exists writes back `points + amount` (a read-modify-write); when the user is
missing it logs a warning and returns without touching the table. -/
def update_user_points (db : List User) (uid : Int) (amount : Int) : List User :=
  match get_user db uid with
  | none => db
  | some u => set_user_points db uid (u.points + amount)

/-- database.py lines 50-52: `get_user_points` returns the stored points or
0 when the user has no row. -/
def get_user_points (db : List User) (uid : Int) : Int :=
  match get_user db uid with
  | some u => u.points
  | none => 0

/-- Modelled from the spec: `update_user_priority` is called by the webhook
(stripe_server.py line 175) but is not defined in src/database.py. Per the
spec's priority-merge contract (§4.4 point 3), it updates `priority` only if
the new boost value is numerically lower (better) than the account's current
priority, or if no priority is currently set; a row-less user id matches no
row, so nothing is written and no account is created (§4.4 point 2). -/
def update_user_priority (db : List User) (uid : Int) (boost : Int) : List User :=
  match get_user db uid with
  | none => db
  | some u =>
    match u.priority with
    | none => set_user_priority db uid boost
    | some p => if boost < p then set_user_priority db uid boost else db

/-! ### Python `int(...)` coercion on metadata values -/

/-- Value of a decimal digit string: `none` when empty or when any
character is not a digit. -/
def digitsToNat? (l : List Char) : Option Nat :=
  match l with
  | [] => none
  | _ =>
    if l.all Char.isDigit then
      some (l.foldl (fun acc c => 10 * acc + (c.toNat - 48)) 0)
    else none

/-- Surrounding whitespace, which Python `int` ignores, dropped from a
character list. -/
def stripWs (l : List Char) : List Char :=
  ((l.dropWhile Char.isWhitespace).reverse.dropWhile Char.isWhitespace).reverse

/-- Python `int(s)` on a string: optional surrounding whitespace, an
optional sign, then decimal digits; anything else raises `ValueError`,
modelled as `none`. -/
def pyInt? (s : String) : Option Int :=
  match stripWs s.toList with
  | '-' :: rest => (digitsToNat? rest).map (fun n => -(n : Int))
  | '+' :: rest => (digitsToNat? rest).map (fun n => (n : Int))
  | l => (digitsToNat? l).map (fun n => (n : Int))

/-- Python `int(v)` where `v` came from `metadata.get(...)`: a missing key
gives `None`, and `int(None)` raises `TypeError`, caught by the same
`except (ValueError, TypeError)` as a parse failure. -/
def pyIntOpt? (v : Option String) : Option Int :=
  match v with
  | none => none
  | some s => pyInt? s

/-! ### Webhook handler (stripe_server.py) -/

/-- stripe_server.py line 51. -/
def PROJECT_IDENTIFIER : String := "monkeyvideos"

/-- A catalog entry of POINT_PACKAGES (stripe_server.py lines 43-47). -/
structure Package where
  label : String
  amount : Nat
  points : Nat
  priority_boost : Nat
deriving Repr, DecidableEq

/-- stripe_server.py lines 43-47. -/
def POINT_PACKAGES : List (String × Package) :=
  [("p200", ⟨"500 points", 399, 500, 1⟩),
   ("p500", ⟨"2000 points", 999, 2000, 1⟩),
   ("p1000", ⟨"5000 points", 1999, 5000, 1⟩)]

/-- Python `package_id in POINT_PACKAGES`: key membership; `package_id` is
`None` when the metadata key is absent, and `None` is not a key. -/
def knownPackage (pid? : Option String) : Bool :=
  match pid? with
  | none => false
  | some pid => (POINT_PACKAGES.find? (fun kv => kv.fst == pid)).isSome

/-- The session metadata fields the handler reads
(`event["data"]["object"].get("metadata", {})`); Stripe metadata values are
strings, and a missing key is `none`. A missing metadata object behaves as
the all-`none` record. -/
structure Metadata where
  telegram_user_id : Option String
  package_id : Option String
  points_awarded : Option String
  priority_boost : Option String
  project : Option String
deriving Repr, DecidableEq

/-- A verified Stripe event as the handler consumes it: its `type` string
and the metadata of `event["data"]["object"]`. -/
structure StripeEvent where
  type : String
  metadata : Metadata
deriving Repr, DecidableEq

/-- Outcome of `stripe.Webhook.construct_event` (external library):
a parsed event, a `SignatureVerificationError`, or a `ValueError`. -/
inductive VerifyResult
  | ok (e : StripeEvent)
  | sigError
  | payloadError
deriving Repr, DecidableEq

/-- An outbound Telegram message, by recipient chat id and content. -/
inductive Notification
  | credited (chat_id points boost : Int)
  | paymentFailed (chat_id : Int)
deriving Repr, DecidableEq

/-- The observable outcome of one webhook request: HTTP status code, the
`status` field of the JSON body (or the HTTPException detail), the users
table afterwards, and the Telegram messages sent. -/
structure WebhookResult where
  status_code : Nat
  body_status : String
  db : List User
  notifications : List Notification
deriving Repr, DecidableEq

/-- Injected Account Store behaviour inside the `try` block of
stripe_server.py lines 167-191: every exception raised there is caught by
the `except` at line 190, which only logs. `noFail` is normal operation;
`failPointsWrite` models the Supabase write inside `update_user_points`
raising (nothing persisted); `failPriorityWrite` models the store raising
during the priority update, after the points write already committed. -/
inductive StoreFail
  | noFail
  | failPointsWrite
  | failPriorityWrite
deriving Repr, DecidableEq

/-- stripe_server.py lines 128-133: Python truthiness makes the filter fire
only when `metadata.get("project")` is a non-empty string different from
PROJECT_IDENTIFIER. -/
def tenantMismatch (e : StripeEvent) : Bool :=
  match e.metadata.project with
  | none => false
  | some p => p != "" && p != PROJECT_IDENTIFIER

/-- stripe_server.py lines 137-193: the `checkout.session.completed`
branch. `user_id` parse failure returns 400 with body status "error"
(lines 146-150); `points_awarded` parse failure degrades to 0 (line 157);
`priority_boost` parse failure degrades to 2 (line 164); an unknown
package id skips the ledger step (line 193) but still acknowledges. The
confirmation message is sent only when the bot is configured. -/
def handleCheckout (m : Metadata) (bot : Bool) (db : List User)
    (f : StoreFail) : WebhookResult :=
  match pyIntOpt? m.telegram_user_id with
  | none => ⟨400, "error", db, []⟩
  | some user_id =>
    let points_awarded : Int := (pyIntOpt? m.points_awarded).getD 0
    let priority_boost : Int := (pyIntOpt? m.priority_boost).getD 2
    if knownPackage m.package_id then
      match f with
      | .failPointsWrite => ⟨200, "ok", db, []⟩
      | .failPriorityWrite =>
        ⟨200, "ok", update_user_points db user_id points_awarded, []⟩
      | .noFail =>
        let db1 := update_user_points db user_id points_awarded
        let db2 := update_user_priority db1 user_id priority_boost
        ⟨200, "ok", db2,
          if bot then [.credited user_id points_awarded priority_boost] else []⟩
    else
      ⟨200, "ok", db, []⟩

/-- stripe_server.py lines 126-227 after successful event construction:
tenant filter first, then dispatch on the event type. In the
`payment_intent.payment_failed` branch (lines 196-225) the notification
call always raises `NameError` (`ParseMode` is never imported) inside its
own `try`, so no message is sent and no state changes; every non-filtered
path falls through to the 200 `{"status": "ok"}` at line 227. -/
def handleEvent (e : StripeEvent) (bot : Bool) (db : List User)
    (f : StoreFail) : WebhookResult :=
  if tenantMismatch e then
    ⟨200, "ignored", db, []⟩
  else if e.type = "checkout.session.completed" then
    handleCheckout e.metadata bot db f
  else if e.type = "payment_intent.payment_failed" then
    ⟨200, "ok", db, []⟩
  else
    ⟨200, "ok", db, []⟩

/-- stripe_server.py lines 109-227: the whole `/webhook/stripe` endpoint.
Signature and payload verification failures raise `HTTPException` 400
before anything else runs. -/
def stripe_webhook (v : VerifyResult) (bot : Bool) (db : List User)
    (f : StoreFail) : WebhookResult :=
  match v with
  | .sigError => ⟨400, "Firma inválida", db, []⟩
  | .payloadError => ⟨400, "Payload inválido", db, []⟩
  | .ok e => handleEvent e bot db f

/-! ### Derived notions used to state the claims -/

/-- The priority an account holds after one merge step of
`update_user_priority`: the boost itself when no priority was set, else the
better (numerically smaller) of the two. -/
def mergedPriority (cur : Option Int) (b : Int) : Int :=
  match cur with
  | none => b
  | some p => min p b

/-- Priority after a whole sequence of merge steps, starting from a
possibly-unset priority. -/
def mergeAll (cur : Option Int) (bs : List Int) : Option Int :=
  bs.foldl (fun c b => some (mergedPriority c b)) cur

/-- A sequence of priority boosts applied to one account, as the webhook's
checkout-completed events apply them through `update_user_priority`. -/
def foldBoosts (db : List User) (uid : Int) (bs : List Int) : List User :=
  bs.foldl (fun d b => update_user_priority d uid b) db

/-! ### Concrete inputs used by counterexamples and witnesses -/

/-- The checkout-completed event of the spec's concrete scenario (§8):
user 42, package p200, 500 points, boost 1, matching tenant id. -/
def evC1 : StripeEvent :=
  ⟨"checkout.session.completed",
   ⟨some "42", some "p200", some "500", some "1", some "monkeyvideos"⟩⟩

/-- Account 42 with zero points and no priority. -/
def dbC1 : List User := [⟨42, 0, none, none, 0⟩]

/-- A tenant-matched (absent project key) checkout event for user 7. -/
def evC2 : StripeEvent :=
  ⟨"checkout.session.completed", ⟨some "7", some "p200", some "500", some "1", none⟩⟩

/-- Account 7 with zero points and no priority. -/
def dbC2 : List User := [⟨7, 0, none, none, 0⟩]

/-- A checkout event whose `points_awarded` metadata parses to -5. -/
def evC4 : StripeEvent :=
  ⟨"checkout.session.completed", ⟨some "7", some "p200", some "-5", some "1", none⟩⟩

/-- Account 7 with zero points. -/
def dbC4 : List User := [⟨7, 0, none, none, 0⟩]

/-- A checkout event whose metadata carries the project key with the empty
string as value: present, and different from PROJECT_IDENTIFIER. -/
def evC5 : StripeEvent :=
  ⟨"checkout.session.completed", ⟨some "42", some "p200", some "500", some "1", some ""⟩⟩

/-- Account 42 with zero points. -/
def dbC5 : List User := [⟨42, 0, none, none, 0⟩]

/-- A checkout event for another tenant ("otherproject"). -/
def evC5w : StripeEvent :=
  ⟨"checkout.session.completed",
   ⟨some "42", some "p200", some "500", some "1", some "otherproject"⟩⟩

/-- A checkout event with no project key at all. -/
def evC5wn : StripeEvent :=
  ⟨"checkout.session.completed", ⟨some "42", some "p200", some "500", some "1", none⟩⟩

/-- A checkout event with non-numeric `points_awarded` and numeric
`priority_boost`. -/
def evC6 : StripeEvent :=
  ⟨"checkout.session.completed", ⟨some "42", some "p200", some "abc", some "3", none⟩⟩

/-- Account 42 with 10 points and priority 5. -/
def dbC6 : List User := [⟨42, 10, some 5, none, 0⟩]

/-- A checkout event whose `telegram_user_id` metadata key is absent. -/
def evC7 : StripeEvent :=
  ⟨"checkout.session.completed", ⟨none, some "p200", some "500", some "1", none⟩⟩

/-- Account 3 with 1 point, unrelated to any event below. -/
def dbC7 : List User := [⟨3, 1, none, none, 0⟩]

/-- A checkout event for user 42, who has no account in `dbC8`. -/
def evC8 : StripeEvent :=
  ⟨"checkout.session.completed", ⟨some "42", some "p200", some "500", some "1", none⟩⟩

/-- A table holding only account 1. -/
def dbC8 : List User := [⟨1, 7, none, none, 0⟩]

/-- A successfully verified checkout event whose `telegram_user_id`
metadata is non-numeric. -/
def evC9 : StripeEvent :=
  ⟨"checkout.session.completed", ⟨some "abc", some "p200", some "500", some "1", none⟩⟩

/-- A table holding only account 1, with 7 points. -/
def dbC10 : List User := [⟨1, 7, none, none, 0⟩]

/-! ### Helper lemmas about the ledger primitives -/

theorem user_eta_priority (u : User) (p : Int) (h : u.priority = some p) :
    { u with priority := some p } = u := by
  rw [← h]

theorem get_user_set_points (db : List User) (uid v : Int) :
    get_user (set_user_points db uid v) uid =
      (get_user db uid).map (fun u => { u with points := v }) := by
  induction db with
  | nil => rfl
  | cons w rest ih =>
    by_cases h : w.user_id = uid
    · simp [set_user_points, get_user, h]
    · simpa [set_user_points, get_user, h] using ih

theorem get_user_set_priority (db : List User) (uid p : Int) :
    get_user (set_user_priority db uid p) uid =
      (get_user db uid).map (fun u => { u with priority := some p }) := by
  induction db with
  | nil => rfl
  | cons w rest ih =>
    by_cases h : w.user_id = uid
    · simp [set_user_priority, get_user, h]
    · simpa [set_user_priority, get_user, h] using ih

theorem get_user_update_points (db : List User) (uid a : Int) (u : User)
    (h : get_user db uid = some u) :
    get_user (update_user_points db uid a) uid =
      some { u with points := u.points + a } := by
  simp [update_user_points, h, get_user_set_points]

theorem update_points_missing (db : List User) (uid a : Int)
    (h : get_user db uid = none) :
    update_user_points db uid a = db := by
  simp [update_user_points, h]

theorem update_priority_missing (db : List User) (uid b : Int)
    (h : get_user db uid = none) :
    update_user_priority db uid b = db := by
  simp [update_user_priority, h]

theorem get_user_update_priority (db : List User) (uid b : Int) (u : User)
    (h : get_user db uid = some u) :
    get_user (update_user_priority db uid b) uid =
      some { u with priority := some (mergedPriority u.priority b) } := by
  cases hp : u.priority with
  | none =>
    simp [update_user_priority, h, hp, get_user_set_priority, mergedPriority]
  | some p =>
    by_cases hb : b < p
    · have hmin : min p b = b := min_eq_right (le_of_lt hb)
      simp [update_user_priority, h, hp, hb, get_user_set_priority,
        mergedPriority, hmin]
    · have hmin : min p b = p := min_eq_left (le_of_not_lt hb)
      simp [update_user_priority, h, hp, hb, mergedPriority, hmin,
        user_eta_priority u p hp]

theorem foldBoosts_get_user (bs : List Int) :
    ∀ (db : List User) (uid : Int) (u : User), get_user db uid = some u →
      ∃ u', get_user (foldBoosts db uid bs) uid = some u' ∧
        u'.priority = mergeAll u.priority bs ∧
        u'.points = u.points ∧ u'.user_id = u.user_id := by
  induction bs with
  | nil => intro db uid u h; exact ⟨u, h, rfl, rfl, rfl⟩
  | cons b bs ih =>
    intro db uid u h
    have h1 := get_user_update_priority db uid b u h
    obtain ⟨u', hu', hp, hpt, hid⟩ := ih (update_user_priority db uid b) uid _ h1
    exact ⟨u', hu', hp, hpt, hid⟩

theorem mergeAll_some (bs : List Int) :
    ∀ p : Int, mergeAll (some p) bs = some (bs.foldl min p) := by
  induction bs with
  | nil => intro p; rfl
  | cons b bs ih =>
    intro p
    simpa [mergeAll, mergedPriority, List.foldl_cons] using ih (min p b)

theorem handleCheckout_body_status (m : Metadata) (bot : Bool)
    (db : List User) (f : StoreFail) :
    (handleCheckout m bot db f).body_status = "error" ∨
    (handleCheckout m bot db f).body_status = "ok" := by
  cases hu : pyIntOpt? m.telegram_user_id with
  | none => left; simp [handleCheckout, hu]
  | some uid =>
    right
    cases f <;> by_cases hk : knownPackage m.package_id <;>
      simp [handleCheckout, hu, hk]

theorem handleEvent_not_ignored (e : StripeEvent) (bot : Bool)
    (db : List User) (f : StoreFail) (hm : tenantMismatch e = false) :
    (handleEvent e bot db f).body_status ≠ "ignored" := by
  by_cases ht : e.type = "checkout.session.completed"
  · rcases handleCheckout_body_status e.metadata bot db f with h | h <;>
      simp [handleEvent, hm, ht, h]
  · by_cases ht2 : e.type = "payment_intent.payment_failed" <;>
      simp [handleEvent, hm, ht, ht2]

/-! ### Claim theorems -/

/-- C3: for any sequence of priority boosts applied to one existing account
through the webhook's priority-merge step, the final stored priority is the
best-wins merge of the initial priority with every boost; when an initial
priority p0 is set it equals min(b1, ..., bn, p0), and a worse boost never
overwrites a better one. Points are untouched by the merge. -/
theorem priority_merge_best_wins (db : List User) (uid : Int) (u : User)
    (bs : List Int) (h : get_user db uid = some u) :
    ∃ u', get_user (foldBoosts db uid bs) uid = some u' ∧
      u'.priority = mergeAll u.priority bs ∧
      u'.points = u.points ∧
      ∀ p0, u.priority = some p0 → u'.priority = some (bs.foldl min p0) := by
  obtain ⟨u', hu', hp, hpt, hid⟩ := foldBoosts_get_user bs db uid u h
  refine ⟨u', hu', hp, hpt, ?_⟩
  intro p0 hp0
  rw [hp, hp0, mergeAll_some]

/-- Witness for C3 at a concrete account with initial priority 5 and the
boost sequence [3, 7, 2]: the final priority is min 3 (min 7 (min 2 5)) = 2. -/
theorem priority_merge_best_wins_witness :
    ∃ u', get_user (foldBoosts [⟨1, 0, some 5, none, 0⟩] 1 [3, 7, 2]) 1 = some u' ∧
      u'.priority = mergeAll (some 5) [3, 7, 2] ∧
      u'.points = 0 ∧
      ∀ p0, (some 5 : Option Int) = some p0 →
        u'.priority = some ([3, 7, 2].foldl min p0) :=
  priority_merge_best_wins [⟨1, 0, some 5, none, 0⟩] 1 ⟨1, 0, some 5, none, 0⟩
    [3, 7, 2] (by decide)

/-- C7: a checkout-completed event that reaches the extractor (verified and
tenant-matched) with absent or non-numeric user id metadata is answered
HTTP 400 with body status "error", the users table untouched and no
notification sent, whatever the Account Store would have done. -/
theorem invalid_user_id_hard_fail (e : StripeEvent) (bot : Bool)
    (db : List User) (f : StoreFail)
    (hm : tenantMismatch e = false)
    (ht : e.type = "checkout.session.completed")
    (hu : pyIntOpt? e.metadata.telegram_user_id = none) :
    stripe_webhook (VerifyResult.ok e) bot db f = ⟨400, "error", db, []⟩ := by
  simp [stripe_webhook, handleEvent, hm, ht, handleCheckout, hu]

/-- Witness for C7 at the concrete event with no user id metadata. -/
theorem invalid_user_id_hard_fail_witness :
    stripe_webhook (VerifyResult.ok evC7) true dbC7 StoreFail.noFail =
      ⟨400, "error", dbC7, []⟩ :=
  invalid_user_id_hard_fail evC7 true dbC7 StoreFail.noFail
    (by decide) rfl (by decide)

/-- C8: when the target account does not exist, processing the
checkout-completed event changes nothing in the users table and in
particular creates no account row for that user id; the credit is a logged
skip inside `update_user_points`, never an insert. -/
theorem unknown_account_not_created (e : StripeEvent) (bot : Bool)
    (db : List User) (f : StoreFail) (uid : Int)
    (hm : tenantMismatch e = false)
    (ht : e.type = "checkout.session.completed")
    (hu : pyIntOpt? e.metadata.telegram_user_id = some uid)
    (hnone : get_user db uid = none) :
    (stripe_webhook (VerifyResult.ok e) bot db f).db = db ∧
    get_user (stripe_webhook (VerifyResult.ok e) bot db f).db uid = none := by
  have hdb : (stripe_webhook (VerifyResult.ok e) bot db f).db = db := by
    by_cases hk : knownPackage e.metadata.package_id <;>
      cases f <;>
        simp [stripe_webhook, handleEvent, hm, ht, handleCheckout, hu, hk,
          update_points_missing, update_priority_missing, hnone]
  exact ⟨hdb, by rw [hdb]; exact hnone⟩

/-- Witness for C8: user 42 has no row in dbC8 and still has none after the
event is processed; the table is unchanged. -/
theorem unknown_account_not_created_witness :
    (stripe_webhook (VerifyResult.ok evC8) true dbC8 StoreFail.noFail).db = dbC8 ∧
    get_user (stripe_webhook (VerifyResult.ok evC8) true dbC8 StoreFail.noFail).db 42 = none :=
  unknown_account_not_created evC8 true dbC8 StoreFail.noFail 42
    (by decide) rfl (by decide) (by decide)

/-- C10: for a user id with no stored row, `get_user` returns none and
`get_user_points` returns 0; for a stored row, unique for its user id,
`get_user` returns that row and `get_user_points` its points field. -/
theorem get_user_points_lookup (db : List User) (uid : Int) :
    ((∀ u, u ∈ db → u.user_id ≠ uid) →
      get_user db uid = none ∧ get_user_points db uid = 0) ∧
    (∀ u, u ∈ db → u.user_id = uid →
      (∀ v, v ∈ db → v.user_id = uid → v = u) →
      get_user db uid = some u ∧ get_user_points db uid = u.points) := by
  induction db with
  | nil =>
    constructor
    · intro _; exact ⟨rfl, rfl⟩
    · intro u hu; cases hu
  | cons w rest ih =>
    constructor
    · intro h
      have hw : w.user_id ≠ uid := h w (List.mem_cons_self w rest)
      have hr := ih.1 (fun u hu => h u (List.mem_cons_of_mem w hu))
      have hg : get_user (w :: rest) uid = none := by simp [get_user, hw, hr.1]
      exact ⟨hg, by simp [get_user_points, hg]⟩
    · intro u hu huid huniq
      by_cases hw : w.user_id = uid
      · have hwu : w = u := huniq w (List.mem_cons_self w rest) hw
        subst hwu
        have hg : get_user (w :: rest) uid = some w := by simp [get_user, hw]
        exact ⟨hg, by simp [get_user_points, hg]⟩
      · have hur : u ∈ rest := by
          cases List.mem_cons.mp hu with
          | inl h => exact absurd (h ▸ huid) hw
          | inr h => exact h
        have hrest := ih.2 u hur huid
          (fun v hv hvid => huniq v (List.mem_cons_of_mem w hv) hvid)
        have hg : get_user (w :: rest) uid = some u := by
          simp [get_user, hw, hrest.1]
        exact ⟨hg, by simp [get_user_points, hg]⟩

/-- Witness for C10 on a one-row table: id 99 is unstored (none, 0 points),
id 1 is stored with 7 points. -/
theorem get_user_points_lookup_witness :
    (get_user dbC10 99 = none ∧ get_user_points dbC10 99 = 0) ∧
    (get_user dbC10 1 = some ⟨1, 7, none, none, 0⟩ ∧
      get_user_points dbC10 1 = 7) :=
  ⟨(get_user_points_lookup dbC10 99).1 (by decide),
   (get_user_points_lookup dbC10 1).2 ⟨1, 7, none, none, 0⟩
     (by decide) (by decide) (by decide)⟩

/-- C5 counterexample: evC5 carries the project identifier "" in its
metadata — present and different from PROJECT_IDENTIFIER — yet the handler
does not ignore it: Python truthiness lets it through the filter, the
table is mutated and a notification is sent. -/
theorem empty_project_not_ignored :
    evC5.metadata.project = some "" ∧
    "" ≠ PROJECT_IDENTIFIER ∧
    (stripe_webhook (VerifyResult.ok evC5) true dbC5 StoreFail.noFail).body_status = "ok" ∧
    (stripe_webhook (VerifyResult.ok evC5) true dbC5 StoreFail.noFail).db ≠ dbC5 ∧
    (stripe_webhook (VerifyResult.ok evC5) true dbC5 StoreFail.noFail).notifications ≠ [] := by
  decide

/-- C5 (amended): an event whose metadata carries a non-empty project
identifier different from this instance's produces no table mutation and
no notification, and the endpoint returns 200 with body status "ignored";
when the project key is absent the event proceeds — the tenant filter never
answers it "ignored". -/
theorem tenant_isolation :
    (∀ (e : StripeEvent) (bot : Bool) (db : List User) (f : StoreFail) (p : String),
      e.metadata.project = some p → p ≠ "" → p ≠ PROJECT_IDENTIFIER →
      stripe_webhook (VerifyResult.ok e) bot db f = ⟨200, "ignored", db, []⟩) ∧
    (∀ (e : StripeEvent) (bot : Bool) (db : List User) (f : StoreFail),
      e.metadata.project = none →
      (stripe_webhook (VerifyResult.ok e) bot db f).body_status ≠ "ignored") := by
  constructor
  · intro e bot db f p hp hne hid
    have hm : tenantMismatch e = true := by
      simp only [tenantMismatch, hp, Bool.and_eq_true, bne_iff_ne, ne_eq]
      exact ⟨hne, hid⟩
    simp [stripe_webhook, handleEvent, hm]
  · intro e bot db f hp
    have hm : tenantMismatch e = false := by simp [tenantMismatch, hp]
    exact handleEvent_not_ignored e bot db f hm

/-- Witness for C5 (amended): a mismatched tenant event is ignored
unchanged, an event without a project key is not ignored. -/
theorem tenant_isolation_witness :
    stripe_webhook (VerifyResult.ok evC5w) true dbC5 StoreFail.noFail =
      ⟨200, "ignored", dbC5, []⟩ ∧
    (stripe_webhook (VerifyResult.ok evC5wn) true dbC5 StoreFail.noFail).body_status ≠ "ignored" :=
  ⟨tenant_isolation.1 evC5w true dbC5 StoreFail.noFail "otherproject"
     rfl (by decide) (by decide),
   tenant_isolation.2 evC5wn true dbC5 StoreFail.noFail rfl⟩

/-- C9 counterexample: a successfully verified checkout-completed event —
neither a signature failure nor a malformed payload — whose user id
metadata is non-numeric is answered with HTTP 400, so 400 is not reserved
to signature and payload validation failures. -/
theorem verified_event_answered_400 :
    (stripe_webhook (VerifyResult.ok evC9) true [] StoreFail.noFail).status_code = 400 := by
  decide

/-- C9 (amended): the endpoint answers only 200 or 400, and it answers 400
exactly for signature verification failures, malformed payloads, and
tenant-matched checkout-completed events whose user id metadata is absent
or non-numeric; every other event — ignored and acknowledged-but-skipped
cases included — gets 200. -/
theorem webhook_status_codes :
    ∀ (v : VerifyResult) (bot : Bool) (db : List User) (f : StoreFail),
      ((stripe_webhook v bot db f).status_code = 200 ∨
        (stripe_webhook v bot db f).status_code = 400) ∧
      ((stripe_webhook v bot db f).status_code = 400 ↔
        v = VerifyResult.sigError ∨ v = VerifyResult.payloadError ∨
        ∃ e, v = VerifyResult.ok e ∧ tenantMismatch e = false ∧
          e.type = "checkout.session.completed" ∧
          pyIntOpt? e.metadata.telegram_user_id = none) := by
  intro v bot db f
  cases v with
  | sigError => exact ⟨Or.inr rfl, by simp [stripe_webhook]⟩
  | payloadError => exact ⟨Or.inr rfl, by simp [stripe_webhook]⟩
  | ok e =>
    cases hm : tenantMismatch e with
    | true =>
      constructor
      · left; simp [stripe_webhook, handleEvent, hm]
      · simp [stripe_webhook, handleEvent, hm]
    | false =>
      by_cases ht : e.type = "checkout.session.completed"
      · cases hu : pyIntOpt? e.metadata.telegram_user_id with
        | none =>
          constructor
          · right; simp [stripe_webhook, handleEvent, hm, ht, handleCheckout, hu]
          · simp [stripe_webhook, handleEvent, hm, ht, handleCheckout, hu]
        | some uid =>
          constructor
          · left
            by_cases hk : knownPackage e.metadata.package_id <;> cases f <;>
              simp [stripe_webhook, handleEvent, hm, ht, handleCheckout, hu, hk]
          · by_cases hk : knownPackage e.metadata.package_id <;> cases f <;>
              simp [stripe_webhook, handleEvent, hm, ht, handleCheckout, hu, hk]
      · by_cases ht2 : e.type = "payment_intent.payment_failed"
        · constructor
          · left; simp [stripe_webhook, handleEvent, hm, ht, ht2]
          · simp [stripe_webhook, handleEvent, hm, ht, ht2]
        · constructor
          · left; simp [stripe_webhook, handleEvent, hm, ht, ht2]
          · simp [stripe_webhook, handleEvent, hm, ht, ht2]

/-- C6: a verified, tenant-matched checkout-completed event with a valid
user id for an existing account and a known package, whose points_awarded
metadata is absent or non-numeric, credits exactly 0 points (the balance is
unchanged), still applies the metadata priority boost through the best-wins
merge (a numeric boost is used as parsed, a non-numeric one is replaced by
the neutral default 2), and is still answered 200 "ok". -/
theorem malformed_points_safe (e : StripeEvent) (bot : Bool) (db : List User)
    (uid : Int) (u : User)
    (hm : tenantMismatch e = false)
    (ht : e.type = "checkout.session.completed")
    (hu : pyIntOpt? e.metadata.telegram_user_id = some uid)
    (hk : knownPackage e.metadata.package_id = true)
    (hpa : pyIntOpt? e.metadata.points_awarded = none)
    (hdb : get_user db uid = some u) :
    (stripe_webhook (VerifyResult.ok e) bot db StoreFail.noFail).status_code = 200 ∧
    (stripe_webhook (VerifyResult.ok e) bot db StoreFail.noFail).body_status = "ok" ∧
    get_user_points (stripe_webhook (VerifyResult.ok e) bot db StoreFail.noFail).db uid = u.points ∧
    (∃ u', get_user (stripe_webhook (VerifyResult.ok e) bot db StoreFail.noFail).db uid = some u' ∧
      u'.priority = some (mergedPriority u.priority
        ((pyIntOpt? e.metadata.priority_boost).getD 2))) ∧
    (∀ b, pyIntOpt? e.metadata.priority_boost = some b →
      (pyIntOpt? e.metadata.priority_boost).getD 2 = b) ∧
    (pyIntOpt? e.metadata.priority_boost = none →
      (pyIntOpt? e.metadata.priority_boost).getD 2 = 2) := by
  have hres : stripe_webhook (VerifyResult.ok e) bot db StoreFail.noFail =
      ⟨200, "ok",
        update_user_priority
          (update_user_points db uid ((pyIntOpt? e.metadata.points_awarded).getD 0))
          uid ((pyIntOpt? e.metadata.priority_boost).getD 2),
        if bot then
          [Notification.credited uid ((pyIntOpt? e.metadata.points_awarded).getD 0)
            ((pyIntOpt? e.metadata.priority_boost).getD 2)]
        else []⟩ := by
    simp [stripe_webhook, handleEvent, hm, ht, handleCheckout, hu, hk]
  have h0 : (pyIntOpt? e.metadata.points_awarded).getD 0 = 0 := by rw [hpa]; rfl
  rw [h0] at hres
  have h1 : get_user (update_user_points db uid 0) uid = some u := by
    simpa [add_zero] using get_user_update_points db uid 0 u hdb
  have h2 := get_user_update_priority (update_user_points db uid 0) uid
    ((pyIntOpt? e.metadata.priority_boost).getD 2) u h1
  refine ⟨by rw [hres], by rw [hres], ?_, ?_, ?_, ?_⟩
  · rw [hres]; simp [get_user_points, h2]
  · rw [hres]; exact ⟨_, h2, rfl⟩
  · intro b hb; rw [hb]; rfl
  · intro hb; rw [hb]; rfl

/-- Witness for C6: account 42 holds 10 points and priority 5; the event
carries points_awarded "abc" and priority_boost "3"; afterwards the balance
is still 10 and the priority is min 5 3 = 3, with a 200 "ok" answer. -/
theorem malformed_points_safe_witness :
    (stripe_webhook (VerifyResult.ok evC6) true dbC6 StoreFail.noFail).status_code = 200 ∧
    (stripe_webhook (VerifyResult.ok evC6) true dbC6 StoreFail.noFail).body_status = "ok" ∧
    get_user_points (stripe_webhook (VerifyResult.ok evC6) true dbC6 StoreFail.noFail).db 42 = 10 ∧
    (∃ u', get_user (stripe_webhook (VerifyResult.ok evC6) true dbC6 StoreFail.noFail).db 42 = some u' ∧
      u'.priority = some (mergedPriority (some 5)
        ((pyIntOpt? evC6.metadata.priority_boost).getD 2))) ∧
    (∀ b, pyIntOpt? evC6.metadata.priority_boost = some b →
      (pyIntOpt? evC6.metadata.priority_boost).getD 2 = b) ∧
    (pyIntOpt? evC6.metadata.priority_boost = none →
      (pyIntOpt? evC6.metadata.priority_boost).getD 2 = 2) :=
  malformed_points_safe evC6 true dbC6 42 ⟨42, 10, some 5, none, 0⟩
    (by decide) rfl (by decide) (by decide) (by decide) (by decide)

/-- C1: the claim fails on the code: `update_user_points` is a plain
read-add-write with no event-id deduplication, so redelivering the very
same verified checkout-completed event credits its 500 points a second
time — the balance after the second submission is 1000, not 500. -/
theorem double_delivery_double_credits :
    get_user_points (stripe_webhook (VerifyResult.ok evC1) true dbC1 StoreFail.noFail).db 42 = 500 ∧
    get_user_points (stripe_webhook (VerifyResult.ok evC1) true
      (stripe_webhook (VerifyResult.ok evC1) true dbC1 StoreFail.noFail).db
      StoreFail.noFail).db 42 = 1000 := by
  decide

/-- C2: the claim fails on the code: when the Account Store raises during
the priority update, after the points write already committed (the
handler's except at line 190 only logs), the point credit stays durably
recorded while the priority merge does not, and the endpoint still answers
200 "ok" — a partial effect with no surfaced failure and no retry. -/
theorem store_failure_partial_effect :
    (stripe_webhook (VerifyResult.ok evC2) true dbC2 StoreFail.failPriorityWrite).status_code = 200 ∧
    (stripe_webhook (VerifyResult.ok evC2) true dbC2 StoreFail.failPriorityWrite).body_status = "ok" ∧
    get_user_points (stripe_webhook (VerifyResult.ok evC2) true dbC2 StoreFail.failPriorityWrite).db 7 = 500 ∧
    Option.map User.priority
      (get_user (stripe_webhook (VerifyResult.ok evC2) true dbC2 StoreFail.failPriorityWrite).db 7) = some none ∧
    (stripe_webhook (VerifyResult.ok evC2) true dbC2 StoreFail.failPriorityWrite).notifications = [] := by
  decide

/-- C4: the claim fails on the code: `int("-5")` parses to -5, no
non-negativity check exists on points_awarded or in `update_user_points`,
and the read-add-write drives account 7's balance from 0 to -5 < 0. -/
theorem negative_points_negative_balance :
    get_user_points (stripe_webhook (VerifyResult.ok evC4) true dbC4 StoreFail.noFail).db 7 = -5 ∧
    get_user_points (stripe_webhook (VerifyResult.ok evC4) true dbC4 StoreFail.noFail).db 7 < 0 := by
  decide
